import Mathlib

/-!
# Verification of the gau2grid collocation-kernel generators

Shallow embedding of the two code generators of the `gau2grid` package:

* `np_generator.py` — emits a vectorized NumPy kernel per angular-momentum
  degree, built lazily at runtime and cached (`compute_collocation`);
* `c_generator.py` — emits a cache-blocked (tiled) C kernel per degree
  (`shell_c_generator`).

Pure generator functions are translated into Lean functions.  The numeric
meaning of emitted kernel lines is modelled over `ℚ` (the emitted code uses
IEEE doubles; every property proved here is about exact formula structure,
loop bounds and indices, not rounding).  Emitted per-component statements
are modelled by a small statement datatype whose constructors correspond
one-to-one to the `cg.write` calls of the generators; code-comment lines
are not modelled, and the Python quote characters inside subscripts such as
`output[PHI_X]` are not reproduced in rendered strings.
-/

/-- Right-hand side of an emitted per-component statement. -/
inductive Rhs where
  /-- A product of two symbols, rendered `a * b` (e.g. `S0 * A`). -/
  | sym2 (a b : String) : Rhs
  /-- An inlined synthesized right-hand side times the radial value,
  rendered `termRhs * S0` (the Hessian pure-angular contributions). -/
  | inlineS0 (termRhs : String) : Rhs
  deriving DecidableEq, Repr

/-- One emitted per-component statement of a generated kernel. -/
inductive Stmt where
  /-- `output[tgt][idx] = rhs` -/
  | assign (tgt : String) (idx : Nat) (rhs : Rhs) : Stmt
  /-- `output[tgt][idx] += rhs` -/
  | accum (tgt : String) (idx : Nat) (rhs : Rhs) : Stmt
  /-- `phi_tmp[offset + i] = rhs` (the blocked backend's tile-local value
  write; `offset` is the component index times the tile size). -/
  | assignTile (offset : Nat) (rhs : Rhs) : Stmt
  /-- A synthesized term-definition line, e.g. `AX = 2.0 * xc_pow[0]`. -/
  | letline (s : String) : Stmt
  deriving DecidableEq, Repr

/-- The output label written by a statement, if it writes one of the output
buffers (`assignTile` writes the tile-local temporary, not an output
label). -/
def stmt_label : Stmt → Option String
  | .assign tgt _ _ => some tgt
  | .accum tgt _ _ => some tgt
  | .assignTile _ _ => none
  | .letline _ => none

/-- Models the Python `s.split(" = ")[-1]` used by both generators to reuse
the right-hand side of a synthesized term line. -/
def rhs_of (s : String) : String :=
  (s.splitOn " = ").getLastD ""

/-- Whether a statement writes the output label `t`. -/
def targets (t : String) : Stmt → Bool :=
  fun s => stmt_label s == some t

/-- Statements emitted under the generators' `if <term> is not None:`
pattern: the statements for a present synthesized term, nothing for an
absent one. -/
def ifPresent (o : Option String) (f : String → List Stmt) : List Stmt :=
  match o with
  | some s => f s
  | none => []

namespace np_generator

/-- Models the Python formatting `"%2.1f" % float(pref)` for the prefactors
reaching that branch of `_build_xyz_pow` (always integers `≥ 2` there, so
the rendering is the decimal digits followed by `.0`, with no padding). -/
def fmt_pref (pref : Int) : String :=
  toString pref ++ ".0"

/-- Translation of `_build_xyz_pow` (np_generator.py, lines 330-366).
Builds one contraction line `name = pref * xc_pow[..] * yc_pow[..] *
zc_pow[..]`, or `none` where the Python function returns `None`.  The
Python default argument `shift=2` is passed explicitly by callers here. -/
def _build_xyz_pow (name : String) (pref : Int) (l m n : Int) (shift : Int) :
    Option String :=
  let l := l - shift
  let m := m - shift
  let n := n - shift
  if pref ≤ 0 ∨ l < 0 ∨ n < 0 ∨ m < 0 then none
  else
    let rm : String × String :=
      if pref = 1 then (name ++ " =", " ")
      else (name ++ " = " ++ fmt_pref pref, " * ")
    let rm : String × String :=
      if l > 0 then (rm.1 ++ rm.2 ++ "xc_pow[" ++ toString (l - 1) ++ "]", " * ")
      else rm
    let rm : String × String :=
      if m > 0 then (rm.1 ++ rm.2 ++ "yc_pow[" ++ toString (m - 1) ++ "]", " * ")
      else rm
    let rm : String × String :=
      if n > 0 then (rm.1 ++ rm.2 ++ "zc_pow[" ++ toString (n - 1) ++ "]", " * ")
      else rm
    some (if rm.2 = " " then rm.1 ++ " 1" else rm.1)

/-- The bundle of terms synthesized by an assembler for one Cartesian
component: the value term `A`, the gradient terms `AX, AY, AZ` and the
Hessian terms `AXX, AYY, AZZ, AXY, AXZ, AYZ`. -/
structure TermBundle where
  A : Option String
  AX : Option String
  AY : Option String
  AZ : Option String
  AXX : Option String
  AYY : Option String
  AZZ : Option String
  AXY : Option String
  AXZ : Option String
  AYZ : Option String
  deriving DecidableEq, Repr

/-- The synthesizer calls of `_numpy_am_build` (np_generator.py, lines
196-323) for one component with raw exponent triple `(l, m, n)`: the source
pre-increments each raw exponent by 2 and forms the locals `ld1 = l - 1`,
`ld2 = l - 2` (analogously for `m`, `n`) before calling `_build_xyz_pow`
with the prefactors shown. -/
def term_bundle (l m n : Int) : TermBundle :=
  let l := l + 2
  let m := m + 2
  let n := n + 2
  let ld1 := l - 1
  let ld2 := l - 2
  let md1 := m - 1
  let md2 := m - 2
  let nd1 := n - 1
  let nd2 := n - 2
  { A := _build_xyz_pow "A" 1 l m n 2
    AX := _build_xyz_pow "AX" ld2 ld1 m n 2
    AY := _build_xyz_pow "AY" md2 l md1 n 2
    AZ := _build_xyz_pow "AZ" nd2 l m nd1 2
    AXX := _build_xyz_pow "AXX" (ld2 * (ld2 - 1)) ld2 m n 2
    AYY := _build_xyz_pow "AYY" (md2 * (md2 - 1)) l md2 n 2
    AZZ := _build_xyz_pow "AZZ" (nd2 * (nd2 - 1)) l m nd2 2
    AXY := _build_xyz_pow "AXY" (ld2 * md2) ld1 md1 n 2
    AXZ := _build_xyz_pow "AXZ" (ld2 * nd2) ld1 m nd1 2
    AYZ := _build_xyz_pow "AYZ" (md2 * nd2) l md1 nd1 2 }

/-- The statements emitted by `_numpy_am_build` (np_generator.py, lines
189-327) for one component `(idx, l, m, n)` of the enumeration, split as
(unguarded value block, `if grad > 0` block, `if grad > 1` block) — the
split mirrors the indentation structure of the generated Python code.
Comment lines are not modelled.  The source writes the always-present value
term with `cg.write(_build_xyz_pow(...))`; its `Option` is unwrapped here
with default `""`, never reached since the value term is always present. -/
def _numpy_am_component (idx : Nat) (l m n : Int) :
    List Stmt × List Stmt × List Stmt :=
  let b := term_bundle l m n
  let x_grad := b.AX.isSome
  let y_grad := b.AY.isSome
  let z_grad := b.AZ.isSome
  let density :=
    [Stmt.letline (b.A.getD ""), Stmt.assign "PHI" idx (.sym2 "S0" "A")]
  let gradPart :=
    [Stmt.assign "PHI_X" idx (.sym2 "SX" "A"),
     Stmt.assign "PHI_Y" idx (.sym2 "SY" "A"),
     Stmt.assign "PHI_Z" idx (.sym2 "SZ" "A")]
    ++ ifPresent b.AX (fun s => [Stmt.letline s, Stmt.accum "PHI_X" idx (.sym2 "S0" "AX")])
    ++ ifPresent b.AY (fun s => [Stmt.letline s, Stmt.accum "PHI_Y" idx (.sym2 "S0" "AY")])
    ++ ifPresent b.AZ (fun s => [Stmt.letline s, Stmt.accum "PHI_Z" idx (.sym2 "S0" "AZ")])
  let hessPart :=
    [Stmt.assign "PHI_XX" idx (.sym2 "SXX" "A")]
    ++ (if x_grad then
          [Stmt.accum "PHI_XX" idx (.sym2 "SX" "AX"),
           Stmt.accum "PHI_XX" idx (.sym2 "SX" "AX")]
        else [])
    ++ ifPresent b.AXX (fun s => [Stmt.accum "PHI_XX" idx (.inlineS0 (rhs_of s))])
    ++ [Stmt.assign "PHI_YY" idx (.sym2 "SYY" "A")]
    ++ (if y_grad then
          [Stmt.accum "PHI_YY" idx (.sym2 "SY" "AY"),
           Stmt.accum "PHI_YY" idx (.sym2 "SY" "AY")]
        else [])
    ++ ifPresent b.AYY (fun s => [Stmt.accum "PHI_YY" idx (.inlineS0 (rhs_of s))])
    ++ [Stmt.assign "PHI_ZZ" idx (.sym2 "SZZ" "A")]
    ++ (if z_grad then
          [Stmt.accum "PHI_ZZ" idx (.sym2 "SZ" "AZ"),
           Stmt.accum "PHI_ZZ" idx (.sym2 "SZ" "AZ")]
        else [])
    ++ ifPresent b.AZZ (fun s => [Stmt.accum "PHI_ZZ" idx (.inlineS0 (rhs_of s))])
    ++ [Stmt.assign "PHI_XY" idx (.sym2 "SXY" "A")]
    ++ (if y_grad then [Stmt.accum "PHI_XY" idx (.sym2 "SX" "AY")] else [])
    ++ (if x_grad then [Stmt.accum "PHI_XY" idx (.sym2 "SY" "AX")] else [])
    ++ ifPresent b.AXY (fun s => [Stmt.accum "PHI_XY" idx (.inlineS0 (rhs_of s))])
    ++ [Stmt.assign "PHI_XZ" idx (.sym2 "SXZ" "A")]
    ++ (if z_grad then [Stmt.accum "PHI_XZ" idx (.sym2 "SX" "AZ")] else [])
    ++ (if x_grad then [Stmt.accum "PHI_XZ" idx (.sym2 "SZ" "AX")] else [])
    ++ ifPresent b.AXZ (fun s => [Stmt.accum "PHI_XZ" idx (.inlineS0 (rhs_of s))])
    ++ [Stmt.assign "PHI_YZ" idx (.sym2 "SYZ" "A")]
    ++ (if z_grad then [Stmt.accum "PHI_YZ" idx (.sym2 "SY" "AZ")] else [])
    ++ (if y_grad then [Stmt.accum "PHI_YZ" idx (.sym2 "SZ" "AY")] else [])
    ++ ifPresent b.AYZ (fun s => [Stmt.accum "PHI_YZ" idx (.inlineS0 (rhs_of s))])
  (density, gradPart, hessPart)

/-- The per-component statements of the generated NumPy kernel that run at
runtime derivative order `grad`: the value block always, the gradient block
under the emitted `if grad > 0:` guard, the Hessian block under the emitted
`if grad > 1:` guard. -/
def active_stmts (grad : Nat) (idx : Nat) (l m n : Int) : List Stmt :=
  let dgh := _numpy_am_component idx l m n
  dgh.1 ++ (if grad > 0 then dgh.2.1 else []) ++ (if grad > 1 then dgh.2.2 else [])

/-- The output-buffer allocations emitted by `numpy_generator`
(np_generator.py, lines 134-153): label and array shape per buffer, with
`ncart = (L+1)(L+2)/2` as computed by the emitted line. -/
def output_alloc (grad L npoints : Nat) : List (String × Nat × Nat) :=
  let ncart := (L + 1) * (L + 2) / 2
  [("PHI", ncart, npoints)]
  ++ (if grad > 0 then
        [("PHI_X", ncart, npoints), ("PHI_Y", ncart, npoints),
         ("PHI_Z", ncart, npoints)]
      else [])
  ++ (if grad > 1 then
        [("PHI_XX", ncart, npoints), ("PHI_YY", ncart, npoints),
         ("PHI_ZZ", ncart, npoints), ("PHI_XY", ncart, npoints),
         ("PHI_XZ", ncart, npoints), ("PHI_YZ", ncart, npoints)]
      else [])

/-- Entry `k` (0-based) of one per-axis power table of the generated NumPy
kernel, as built by the emitted lines `xc_pow[0] = xc` and
`for LL in range(1, L): xc_pow[LL] = xc_pow[LL - 1] * xc`
(np_generator.py, lines 118-131), rendered functionally: the loop body
defines entry `LL` from entry `LL - 1`.  Only entries `k ≤ L - 1` are built
by the emitted loop. -/
def pow_entry (base : ℚ) : Nat → ℚ
  | 0 => base
  | k + 1 => pow_entry base k * base

/-- A kernel built by `numpy_generator` and stored in the module cache
`__built_npcoll_functions`, identified by what the generator was asked to
build. -/
structure Kernel where
  L : Nat
  lookup_name : String
  cart_order : String
  deriving DecidableEq, Repr

/-- Model of `numpy_generator(L, function_name, cart_order)` at the level
needed by the caching claims: the built kernel for the requested key. -/
def numpy_generator (L : Nat) (function_name : String) (cart_order : String) :
    Kernel :=
  { L := L, lookup_name := function_name, cart_order := cart_order }

/-- The cache key `"compute_shell_%d_%s" % (L, cart_order)` under which
`compute_collocation` stores the built kernel (np_generator.py, line 52). -/
def cache_key (L : Nat) (cart_order : String) : String :=
  "compute_shell_" ++ toString L ++ "_" ++ cart_order

/-- Model of `compute_collocation` (np_generator.py, lines 14-57).  The
module-level cache `__built_npcoll_functions` is threaded explicitly as an
association list.  The result is either the error raised for `grad > 2`, or
the kernel used together with the number of kernels built during the call,
plus in either case the cache state after the call.  (The Python message
text contains an apostrophe, elided here.) -/
def compute_collocation (cache : List (String × Kernel)) (L : Nat)
    (grad : Nat) (cart_order : String) :
    Except String (Kernel × Nat) × List (String × Kernel) :=
  if grad > 2 then
    (Except.error "Only up to Hessians of the points (grad = 2) is supported.",
     cache)
  else
    let lookup := "compute_shell_" ++ toString L ++ "_" ++ cart_order
    match cache.lookup lookup with
    | some func => (Except.ok (func, 0), cache)
    | none =>
      let func := numpy_generator L lookup cart_order
      (Except.ok (func, 1), (lookup, func) :: cache)

end np_generator

namespace c_generator

/-- Translation of `_build_xyz_pow` (c_generator.py, lines 304-340); the
Python source is textually identical to the one in `np_generator.py`. -/
def _build_xyz_pow (name : String) (pref : Int) (l m n : Int) (shift : Int) :
    Option String :=
  let l := l - shift
  let m := m - shift
  let n := n - shift
  if pref ≤ 0 ∨ l < 0 ∨ n < 0 ∨ m < 0 then none
  else
    let rm : String × String :=
      if pref = 1 then (name ++ " =", " ")
      else (name ++ " = " ++ np_generator.fmt_pref pref, " * ")
    let rm : String × String :=
      if l > 0 then (rm.1 ++ rm.2 ++ "xc_pow[" ++ toString (l - 1) ++ "]", " * ")
      else rm
    let rm : String × String :=
      if m > 0 then (rm.1 ++ rm.2 ++ "yc_pow[" ++ toString (m - 1) ++ "]", " * ")
      else rm
    let rm : String × String :=
      if n > 0 then (rm.1 ++ rm.2 ++ "zc_pow[" ++ toString (n - 1) ++ "]", " * ")
      else rm
    some (if rm.2 = " " then rm.1 ++ " 1" else rm.1)

/-- The synthesizer calls of `_c_am_build` (c_generator.py, lines 166-301)
for one component: same local shift arithmetic and same prefactors as the
NumPy assembler, using this file's `_build_xyz_pow`. -/
def term_bundle (l m n : Int) : np_generator.TermBundle :=
  let l := l + 2
  let m := m + 2
  let n := n + 2
  let ld1 := l - 1
  let ld2 := l - 2
  let md1 := m - 1
  let md2 := m - 2
  let nd1 := n - 1
  let nd2 := n - 2
  { A := _build_xyz_pow "A" 1 l m n 2
    AX := _build_xyz_pow "AX" ld2 ld1 m n 2
    AY := _build_xyz_pow "AY" md2 l md1 n 2
    AZ := _build_xyz_pow "AZ" nd2 l m nd1 2
    AXX := _build_xyz_pow "AXX" (ld2 * (ld2 - 1)) ld2 m n 2
    AYY := _build_xyz_pow "AYY" (md2 * (md2 - 1)) l md2 n 2
    AZZ := _build_xyz_pow "AZZ" (nd2 * (nd2 - 1)) l m nd2 2
    AXY := _build_xyz_pow "AXY" (ld2 * md2) ld1 md1 n 2
    AXZ := _build_xyz_pow "AXZ" (ld2 * nd2) ld1 m nd1 2
    AYZ := _build_xyz_pow "AYZ" (md2 * nd2) l md1 nd1 2 }

/-- The statements emitted by `_c_am_build` (c_generator.py, lines 166-301)
for one component `(idx, l, m, n)`, split as (value block, gradient block,
Hessian block).  The value write goes to the tile-local buffer
`phi_tmp[idx * shift + i]` where `shift` is the tile size; the gradient and
Hessian lines are emitted with the same `output[..]` text as the NumPy
assembler.  Comment lines are not modelled. -/
def _c_am_component (idx : Nat) (l m n : Int) (shift : Nat) :
    List Stmt × List Stmt × List Stmt :=
  let b := term_bundle l m n
  let x_grad := b.AX.isSome
  let y_grad := b.AY.isSome
  let z_grad := b.AZ.isSome
  let density :=
    [Stmt.letline (b.A.getD ""), Stmt.assignTile (idx * shift) (.sym2 "S0" "A")]
  let gradPart :=
    [Stmt.assign "PHI_X" idx (.sym2 "SX" "A"),
     Stmt.assign "PHI_Y" idx (.sym2 "SY" "A"),
     Stmt.assign "PHI_Z" idx (.sym2 "SZ" "A")]
    ++ ifPresent b.AX (fun s => [Stmt.letline s, Stmt.accum "PHI_X" idx (.sym2 "S0" "AX")])
    ++ ifPresent b.AY (fun s => [Stmt.letline s, Stmt.accum "PHI_Y" idx (.sym2 "S0" "AY")])
    ++ ifPresent b.AZ (fun s => [Stmt.letline s, Stmt.accum "PHI_Z" idx (.sym2 "S0" "AZ")])
  let hessPart :=
    [Stmt.assign "PHI_XX" idx (.sym2 "SXX" "A")]
    ++ (if x_grad then
          [Stmt.accum "PHI_XX" idx (.sym2 "SX" "AX"),
           Stmt.accum "PHI_XX" idx (.sym2 "SX" "AX")]
        else [])
    ++ ifPresent b.AXX (fun s => [Stmt.accum "PHI_XX" idx (.inlineS0 (rhs_of s))])
    ++ [Stmt.assign "PHI_YY" idx (.sym2 "SYY" "A")]
    ++ (if y_grad then
          [Stmt.accum "PHI_YY" idx (.sym2 "SY" "AY"),
           Stmt.accum "PHI_YY" idx (.sym2 "SY" "AY")]
        else [])
    ++ ifPresent b.AYY (fun s => [Stmt.accum "PHI_YY" idx (.inlineS0 (rhs_of s))])
    ++ [Stmt.assign "PHI_ZZ" idx (.sym2 "SZZ" "A")]
    ++ (if z_grad then
          [Stmt.accum "PHI_ZZ" idx (.sym2 "SZ" "AZ"),
           Stmt.accum "PHI_ZZ" idx (.sym2 "SZ" "AZ")]
        else [])
    ++ ifPresent b.AZZ (fun s => [Stmt.accum "PHI_ZZ" idx (.inlineS0 (rhs_of s))])
    ++ [Stmt.assign "PHI_XY" idx (.sym2 "SXY" "A")]
    ++ (if y_grad then [Stmt.accum "PHI_XY" idx (.sym2 "SX" "AY")] else [])
    ++ (if x_grad then [Stmt.accum "PHI_XY" idx (.sym2 "SY" "AX")] else [])
    ++ ifPresent b.AXY (fun s => [Stmt.accum "PHI_XY" idx (.inlineS0 (rhs_of s))])
    ++ [Stmt.assign "PHI_XZ" idx (.sym2 "SXZ" "A")]
    ++ (if z_grad then [Stmt.accum "PHI_XZ" idx (.sym2 "SX" "AZ")] else [])
    ++ (if x_grad then [Stmt.accum "PHI_XZ" idx (.sym2 "SZ" "AX")] else [])
    ++ ifPresent b.AXZ (fun s => [Stmt.accum "PHI_XZ" idx (.inlineS0 (rhs_of s))])
    ++ [Stmt.assign "PHI_YZ" idx (.sym2 "SYZ" "A")]
    ++ (if z_grad then [Stmt.accum "PHI_YZ" idx (.sym2 "SY" "AZ")] else [])
    ++ (if y_grad then [Stmt.accum "PHI_YZ" idx (.sym2 "SZ" "AY")] else [])
    ++ ifPresent b.AYZ (fun s => [Stmt.accum "PHI_YZ" idx (.inlineS0 (rhs_of s))])
  (density, gradPart, hessPart)

/-- The statements `_c_am_build` emits for one component at generation-time
derivative order `grad`: the value block always; `if grad == 0: continue`
skips the rest; `if grad == 1: continue` skips the Hessian block. -/
def _c_am_build_component (grad : Nat) (idx : Nat) (l m n : Int)
    (shift : Nat) : List Stmt :=
  let dgh := _c_am_component idx l m n shift
  if grad = 0 then dgh.1
  else if grad = 1 then dgh.1 ++ dgh.2.1
  else dgh.1 ++ dgh.2.1 ++ dgh.2.2

/-- Number of outer tile-loop iterations of the emitted blocked kernel, as
computed by the emitted sizing lines (c_generator.py, lines 64-65):
`size_t nblocks = npoints / ib; nblocks += (nblocks % ib) ? 0 : 1`
(a C ternary: add 0 when the remainder is nonzero, 1 when it is zero). -/
def nblocks_emitted (npoints inner_block : Nat) : Nat :=
  let nblocks := npoints / inner_block
  nblocks + (if nblocks % inner_block ≠ 0 then 0 else 1)

/-- Number of tiles needed to cover every point exactly once:
`ceil(npoints / inner_block)`. -/
def nblocks_ceil (npoints inner_block : Nat) : Nat :=
  (npoints + inner_block - 1) / inner_block

/-- The per-tile valid point count of the emitted blocked kernel
(c_generator.py, line 95):
`size_t remain = ((start + ib) > npoints) ? (npoints - start) : ib`. -/
def remain_emitted (npoints start inner_block : Nat) : Nat :=
  if start + inner_block > npoints then npoints - start else inner_block

/-- Bounds of the three per-tile loops of the emitted blocked kernel. -/
structure TileLoops where
  copyBound : Nat
  computeBound : Nat
  scatterBound : Nat
  deriving DecidableEq, Repr

/-- The three per-tile loop bounds as emitted (c_generator.py): the
recentring copy loop `for (size_t i = 0; i < remain; i++)` (line 97), the
per-point computation loop `for (size_t i = 0; i < ib; i++)` (line 106),
and the scatter-back loop `for (size_t i = 0; i < remain; i++)`
(line 146). -/
def tile_loops (npoints start inner_block : Nat) : TileLoops :=
  { copyBound := remain_emitted npoints start inner_block
    computeBound := inner_block
    scatterBound := remain_emitted npoints start inner_block }

/-- Point index `p` is covered by the emitted blocked kernel: for some
block number `b` below the emitted tile count, `p` lies within the first
`remain` lanes of tile `b` (whose start is `b * inner_block`), so that the
tile recentres and scatters it. -/
def point_covered (npoints inner_block p : Nat) : Prop :=
  ∃ b < nblocks_emitted npoints inner_block,
    inner_block * b ≤ p ∧
      p < inner_block * b +
        remain_emitted npoints (inner_block * b) inner_block

instance (npoints inner_block p : Nat) :
    Decidable (point_covered npoints inner_block p) := by
  unfold point_covered
  infer_instance

/-- Value written into row `l`, lane `i` of the `xc_pow` table by the
emitted blocked kernel (c_generator.py, lines 122-130): row 0 is `xc[i]`,
and for each `1 ≤ l ≤ L - 1` the emitted line is
`xc_pow[ib*l + i] = xc[ib*(l-1) + i]` — a copy out of the `xc` difference
buffer (the same `xc_pow`/`xc` line is emitted three times; the `yc_pow`
and `zc_pow` rows past row 0 are never written).  The `xc` buffer is
modelled as a total function on flat indices; indices `≥ ib` lie outside
the buffer that the kernel allocates. -/
def xc_pow_row (xc : Nat → ℚ) (ib i : Nat) : Nat → ℚ
  | 0 => xc i
  | l + 1 => xc (ib * l + i)

/-- Renders a right-hand side to emitted source text. -/
def rhs_render : Rhs → String
  | .sym2 a b => a ++ " * " ++ b
  | .inlineS0 s => s ++ " * S0"

/-- Renders a modelled statement to the emitted source text (Python quote
characters inside subscripts are not reproduced). -/
def stmt_render : Stmt → String
  | .assign tgt idx r =>
      "output[" ++ tgt ++ "][" ++ toString idx ++ "] = " ++ rhs_render r
  | .accum tgt idx r =>
      "output[" ++ tgt ++ "][" ++ toString idx ++ "] += " ++ rhs_render r
  | .assignTile off r => "phi_tmp[" ++ toString off ++ " + i] = " ++ rhs_render r
  | .letline s => s

/-- The lines `shell_c_generator` writes into the code buffer when
`grad = 0` (c_generator.py, lines 59-160), in emission order: block-opening
lines are modelled by their header text (the external `codegen`
collaborator adds the block delimiters), comment and blank lines are not
modelled, and the unrolled per-component statements of `_c_am_build` are
rendered from the component model.  `comps` is the enumeration supplied by
the external `order.cartesian_order_factory` collaborator. -/
def shell_body_lines (comps : List (Nat × Int × Int × Int)) (L : Nat)
    (inner_block : Nat) : List String :=
  let ncart := (L + 1) * (L + 2) / 2
  let nspherical := L * 2 + 1
  let ib := toString inner_block
  ["size_t nblocks = npoints / " ++ ib,
   "nblocks += (nblocks % " ++ ib ++ ") ? 0 : 1",
   "size_t ncart = " ++ toString ncart,
   "size_t nspherical = " ++ toString nspherical,
   "size_t nout = spherical ? nspherical : ncart"]
  ++ ["double* xc = new double[" ++ ib ++ "]",
      "double* yz = new double[" ++ ib ++ "]",
      "double* zc = new double[" ++ ib ++ "]",
      "double* R2 = new double[" ++ ib ++ "]",
      "double* S0 = new double[" ++ ib ++ "]",
      "double* xc_pow = new double[" ++ toString (inner_block * L) ++ "]",
      "double* yz_pow = new double[" ++ toString (inner_block * L) ++ "]",
      "double* zc_pow = new double[" ++ toString (inner_block * L) ++ "]",
      "double* phi_tmp = new double[" ++ toString (inner_block * ncart) ++ "]"]
  ++ ["for (size_t block = 0; block < nblocks; block++)",
      "size_t start = block * " ++ ib,
      "size_t remain = ((start + " ++ ib ++ ") > npoints) ? (npoints - start) : " ++ ib,
      "for (size_t i = 0; i < remain; i++)",
      "xc[i] = x[start + i] - center[0]",
      "yc[i] = y[start + i] - center[1]",
      "zc[i] = z[start + i] - center[2]",
      "for (size_t i = 0; i < " ++ ib ++ "; i++)",
      "R2[i] = xc[i] * xc[i] + yc[i] * yc[i] + zc[i] * zc[i]",
      "for (size_t n = 0; n < nprim; n++)",
      "double T1 = coeffs[n] * exp(-1.0 * exponents[n] * R2[i])",
      "S0[i] += T1",
      "xc_pow[i] = xc[i]",
      "yc_pow[i] = yc[i]",
      "zc_pow[i] = zc[i]"]
  ++ ((List.range (L - 1)).flatMap fun k =>
        let l := k + 1
        let line := "xc_pow[" ++ toString (inner_block * l) ++ " + i] = xc[" ++
          toString (inner_block * (l - 1)) ++ " + i]"
        [line, line, line])
  ++ (comps.flatMap fun e =>
        (_c_am_build_component 0 e.1 e.2.1 e.2.2.1 e.2.2.2 inner_block).map
          stmt_render)
  ++ ["for (size_t n = 0; n < nout; n++)",
      "for (size_t i = 0; i < remain; i++)",
      "ret[start * nout + i] = phi_out[" ++ ib ++ " * n + i]",
      "delete[] xc", "delete[] yz", "delete[] zc", "delete[] R2",
      "delete[] S0", "delete[] xc_pow", "delete[] yz_pow", "delete[] zc_pow",
      "delete[] phi_tmp"]

/-- Model of `shell_c_generator` (c_generator.py, lines 43-163) as its
effect on the code buffer `cg` (the list of lines written so far) together
with its returned signature or raised error.  For `grad ≠ 0` the source
raises `KeyError` (line 56) before the first `cg` call, so the buffer is
unchanged; for `grad = 0` it appends the emitted kernel lines and returns
the function signature. -/
def shell_c_generator (cg : List String)
    (comps : List (Nat × Int × Int × Int)) (L : Nat) (grad : Nat)
    (inner_block : Nat) : Except String String × List String :=
  let function_name := "coll_" ++ toString L ++ "_" ++ toString grad
  if grad = 0 then
    let func_sig := "void " ++ function_name ++
      "(size_t npoints, double* x, double* y, double* z, int nprim, double* coeffs, double* exponents, double* center, bool spherical, double* ret)"
    (Except.ok func_sig,
     cg ++ [func_sig] ++ shell_body_lines comps L inner_block)
  else
    (Except.error "Grad larger than 2 is not yet implemented.", cg)

end c_generator

namespace xyzspec

/-- Spec-side factor list for a synthesized term (spec section 4.1): one
power-table reference per axis whose shifted exponent is positive, at index
one less than the shifted exponent.  Arguments are the already-shifted
exponents. -/
def factors (l m n : Int) : List String :=
  (if l > 0 then ["xc_pow[" ++ toString (l - 1) ++ "]"] else [])
    ++ (if m > 0 then ["yc_pow[" ++ toString (m - 1) ++ "]"] else [])
    ++ (if n > 0 then ["zc_pow[" ++ toString (n - 1) ++ "]"] else [])

/-- Joins factor strings with multiplication signs; the empty product is
the constant `1` (spec section 4.1). -/
def joinFactors : List String → String
  | [] => "1"
  | [p] => p
  | p :: ps => p ++ " * " ++ joinFactors ps

/-- Spec-side rendering of a synthesized term (spec section 4.1): the
prefactor appears only when it is not 1, followed by the per-axis factors;
with no contribution at all the term degenerates to the constant 1. -/
def render (name : String) (pref : Int) (l m n : Int) : String :=
  name ++ " = " ++
    joinFactors ((if pref = 1 then [] else [np_generator.fmt_pref pref])
      ++ factors l m n)

/-- The three gradient output labels (spec section 3, output bundle). -/
def grad_labels : List String := ["PHI_X", "PHI_Y", "PHI_Z"]

/-- The six Hessian output labels (spec section 3, output bundle). -/
def hess_labels : List String :=
  ["PHI_XX", "PHI_YY", "PHI_ZZ", "PHI_XY", "PHI_XZ", "PHI_YZ"]

end xyzspec

/-! ## Helper lemmas -/

/-- `(a ++ b).data = a.data ++ b.data` for strings, by definition. -/
theorem sdata (a b : String) : (a ++ b).data = a.data ++ b.data := rfl

/-- `if`-reduction for the separator check on the separator `" "`. -/
theorem if_space {α : Type} (a b : α) :
    (if (" " : String) = " " then a else b) = a :=
  if_pos rfl

/-- `if`-reduction for the separator check on the separator `" * "`. -/
theorem if_star {α : Type} (a b : α) :
    (if (" * " : String) = " " then a else b) = b :=
  if_neg (by decide)

/-- The two files' term synthesizers are the same function. -/
theorem c_build_eq_np_build :
    c_generator._build_xyz_pow = np_generator._build_xyz_pow :=
  rfl

/-- Closed form of the term synthesizer: the source's running-separator
construction equals the spec-side rendering. -/
theorem build_xyz_pow_eq_render (name : String) (pref l m n shift : Int) :
    np_generator._build_xyz_pow name pref l m n shift =
      if pref ≤ 0 ∨ l - shift < 0 ∨ n - shift < 0 ∨ m - shift < 0 then none
      else some (xyzspec.render name pref (l - shift) (m - shift) (n - shift)) := by
  by_cases hg : pref ≤ 0 ∨ l - shift < 0 ∨ n - shift < 0 ∨ m - shift < 0
  · simp only [np_generator._build_xyz_pow, if_pos hg]
  · simp only [np_generator._build_xyz_pow, xyzspec.render, xyzspec.factors,
      if_neg hg]
    by_cases hp : pref = 1 <;>
      by_cases hl : l - shift > 0 <;>
        by_cases hm : m - shift > 0 <;>
          by_cases hn : n - shift > 0 <;>
            simp only [if_pos, if_neg, hp, hl, hm, hn, ite_true, ite_false,
              if_true, if_false, xyzspec.joinFactors, List.append_nil,
              List.nil_append, List.cons_append, List.singleton_append,
              if_space, if_star] <;>
            first
              | rfl
              | (apply congrArg; apply String.ext;
                 simp only [sdata, List.append_assoc, List.cons_append,
                   List.nil_append])

/-! ## Claim theorems -/

/-- C4: for every label, every prefactor and every exponent triple with the
fixed shift of 2, both backends' `_build_xyz_pow` return `none` exactly when
the prefactor is `≤ 0` or a shifted exponent is negative; otherwise they
return the product expression that references `power_table[axis][shifted
exponent - 1]` for every axis whose shifted exponent is positive, shows the
prefactor only when it is not 1, and degenerates to the constant 1 (times
the prefactor) when no axis contributes a factor. -/
theorem C4_term_synthesizer (name : String) (pref l m n : Int) :
    (np_generator._build_xyz_pow name pref l m n 2 = none ↔
      pref ≤ 0 ∨ l - 2 < 0 ∨ m - 2 < 0 ∨ n - 2 < 0) ∧
    np_generator._build_xyz_pow name pref l m n 2 =
      (if pref ≤ 0 ∨ l - 2 < 0 ∨ m - 2 < 0 ∨ n - 2 < 0 then none
       else some (xyzspec.render name pref (l - 2) (m - 2) (n - 2))) ∧
    c_generator._build_xyz_pow name pref l m n 2 =
      np_generator._build_xyz_pow name pref l m n 2 := by
  have h := build_xyz_pow_eq_render name pref l m n 2
  refine ⟨?_, ?_, by rw [c_build_eq_np_build]⟩
  · rw [h]
    by_cases hg : pref ≤ 0 ∨ l - 2 < 0 ∨ n - 2 < 0 ∨ m - 2 < 0
    · simp only [if_pos hg, true_iff]
      tauto
    · simp only [if_neg hg]
      constructor
      · intro hc
        exact absurd hc (by simp)
      · intro hc
        exact absurd hg (by tauto)
  · rw [h]
    by_cases hg : pref ≤ 0 ∨ l - 2 < 0 ∨ n - 2 < 0 ∨ m - 2 < 0
    · rw [if_pos hg, if_pos (by tauto)]
    · rw [if_neg hg, if_neg (by tauto)]

/-- C1: evaluation of the emitted blocked kernel sizing at a failing input:
for npoints = 65 and tile size 64 the emitted lines compute one tile, while
covering every point once needs ceil(65/64) = 2 tiles, and point index 64
(a valid point) is recentred and scattered by no executed tile. -/
theorem C1_blocked_tile_count_bug :
    c_generator.nblocks_emitted 65 64 = 1 ∧
    c_generator.nblocks_ceil 65 64 = 2 ∧
    64 < 65 ∧ ¬ c_generator.point_covered 65 64 64 := by
  refine ⟨rfl, rfl, by norm_num, ?_⟩
  decide

/-- C2 counterexample: at npoints = 5, tile start 0, tile size 64 the
clamped valid count is 5, but the emitted per-point computation loop
iterates 64 times — so not every per-tile loop uses the clamped count. -/
theorem C2_compute_loop_counterexample :
    c_generator.remain_emitted 5 0 64 = 5 ∧
    (c_generator.tile_loops 5 0 64).computeBound = 64 ∧
    (c_generator.tile_loops 5 0 64).computeBound ≠ min 64 (5 - 0) := by
  decide

/-- C2 amended: the valid count is computed as min(tile size, npoints -
tile start), and the recentring-copy and scatter-back loops iterate over
this clamped count, but the per-point computation loop iterates over the
nominal tile size. -/
theorem C2_tile_loop_bounds (npoints start inner_block : Nat) :
    c_generator.remain_emitted npoints start inner_block =
      min inner_block (npoints - start) ∧
    (c_generator.tile_loops npoints start inner_block).copyBound =
      min inner_block (npoints - start) ∧
    (c_generator.tile_loops npoints start inner_block).scatterBound =
      min inner_block (npoints - start) ∧
    (c_generator.tile_loops npoints start inner_block).computeBound =
      inner_block := by
  refine ⟨?_, ?_, ?_, rfl⟩ <;>
    (simp only [c_generator.tile_loops, c_generator.remain_emitted]
     split_ifs with h <;> omega)

/-- C3: the NumPy backend's per-axis power table is built incrementally and
entry k holds the base to the power k+1; but the blocked backend's emitted
table lines are plain copies out of the `xc` buffer for all three axes, not
incremental products: on a block whose `xc` buffer is constantly 2, row 1
of the emitted `xc_pow` holds 2 while the coordinate squared is 4. -/
theorem C3_power_table (base : ℚ) (k : Nat) :
    np_generator.pow_entry base k = base ^ (k + 1) ∧
    c_generator.xc_pow_row (fun _ => 2) 64 0 1 = 2 ∧
    ((2 : ℚ) ^ (1 + 1) = 4) ∧ ((2 : ℚ) ≠ 4) := by
  refine ⟨?_, rfl, by norm_num, by norm_num⟩
  induction k with
  | zero => simp [np_generator.pow_entry]
  | succ k ih => rw [np_generator.pow_entry, ih]; ring

/-- C6: the array-backend compute operation rejects derivative orders above
2 immediately: the call errors out and the kernel cache is untouched — no
kernel is built, executed or inserted, and no output is produced. -/
theorem C6_grad_gt2_raises (cache : List (String × np_generator.Kernel))
    (L grad : Nat) (cart_order : String) (h : 2 < grad) :
    np_generator.compute_collocation cache L grad cart_order =
      (Except.error
        "Only up to Hessians of the points (grad = 2) is supported.",
       cache) := by
  unfold np_generator.compute_collocation
  rw [if_pos h]

/-- Witness for C6 at grad = 3 on the empty cache. -/
theorem C6_witness :
    np_generator.compute_collocation [] 0 3 "row" =
      (Except.error
        "Only up to Hessians of the points (grad = 2) is supported.",
       []) :=
  C6_grad_gt2_raises [] 0 3 "row" (by norm_num)

/-- C7: the blocked-backend generator fails fast for every derivative order
other than the value-only path: for `grad ≠ 0` it raises before writing any
line into the code buffer, which is returned unchanged. -/
theorem C7_blocked_grad_fail_fast (cg : List String)
    (comps : List (Nat × Int × Int × Int)) (L grad inner_block : Nat)
    (h : grad ≠ 0) :
    c_generator.shell_c_generator cg comps L grad inner_block =
      (Except.error "Grad larger than 2 is not yet implemented.", cg) := by
  unfold c_generator.shell_c_generator
  rw [if_neg h]

/-- Witness for C7 at grad = 1 on a nonempty buffer. -/
theorem C7_witness :
    c_generator.shell_c_generator ["header line"] [] 2 1 64 =
      (Except.error "Grad larger than 2 is not yet implemented.",
       ["header line"]) :=
  C7_blocked_grad_fail_fast ["header line"] [] 2 1 64 (by norm_num)

/-- C8: calling the array-backend compute operation on a key not yet in the
cache builds the kernel and inserts it under that key; every subsequent
call with the same key returns that same built kernel with zero rebuilds
and leaves the cache unchanged; and no pre-existing cache entry is
invalidated or evicted by the insertion. -/
theorem C8_cache_single_build (cache : List (String × np_generator.Kernel))
    (L grad grad2 : Nat) (cart_order : String) (hg : grad ≤ 2)
    (hg2 : grad2 ≤ 2)
    (hnew : cache.lookup (np_generator.cache_key L cart_order) = none) :
    np_generator.compute_collocation cache L grad cart_order =
      (Except.ok
        (np_generator.numpy_generator L (np_generator.cache_key L cart_order)
          cart_order, 1),
       (np_generator.cache_key L cart_order,
        np_generator.numpy_generator L (np_generator.cache_key L cart_order)
          cart_order) :: cache) ∧
    np_generator.compute_collocation
        ((np_generator.cache_key L cart_order,
          np_generator.numpy_generator L (np_generator.cache_key L cart_order)
            cart_order) :: cache) L grad2 cart_order =
      (Except.ok
        (np_generator.numpy_generator L (np_generator.cache_key L cart_order)
          cart_order, 0),
       (np_generator.cache_key L cart_order,
        np_generator.numpy_generator L (np_generator.cache_key L cart_order)
          cart_order) :: cache) ∧
    ∀ key v, cache.lookup key = some v →
      ((np_generator.cache_key L cart_order,
        np_generator.numpy_generator L (np_generator.cache_key L cart_order)
          cart_order) :: cache).lookup key = some v := by
  have hng : ¬ grad > 2 := by omega
  have hng2 : ¬ grad2 > 2 := by omega
  have hkey : ("compute_shell_" ++ toString L ++ "_" ++ cart_order) =
      np_generator.cache_key L cart_order := rfl
  refine ⟨?_, ?_, ?_⟩
  · unfold np_generator.compute_collocation
    rw [if_neg hng]
    simp only [hkey, hnew]
  · unfold np_generator.compute_collocation
    rw [if_neg hng2]
    simp only [hkey, List.lookup, beq_self_eq_true]
  · intro key v hv
    by_cases hk : key = np_generator.cache_key L cart_order
    · rw [hk] at hv
      rw [hv] at hnew
      exact absurd hnew (by simp)
    · have hb : (key == np_generator.cache_key L cart_order) = false :=
        beq_eq_false_iff_ne.mpr hk
      simp only [List.lookup, hb]
      exact hv

/-- Witness for C8: empty cache, L = 0, first call at grad 0, second call
at grad 1, row ordering. -/
theorem C8_witness :
    (np_generator.compute_collocation [] 0 0 "row" =
      (Except.ok
        (np_generator.numpy_generator 0 (np_generator.cache_key 0 "row")
          "row", 1),
       [(np_generator.cache_key 0 "row",
         np_generator.numpy_generator 0 (np_generator.cache_key 0 "row")
           "row")])) ∧
    (np_generator.compute_collocation
        [(np_generator.cache_key 0 "row",
          np_generator.numpy_generator 0 (np_generator.cache_key 0 "row")
            "row")] 0 1 "row" =
      (Except.ok
        (np_generator.numpy_generator 0 (np_generator.cache_key 0 "row")
          "row", 0),
       [(np_generator.cache_key 0 "row",
         np_generator.numpy_generator 0 (np_generator.cache_key 0 "row")
           "row")])) ∧
    ∀ key v, ([] : List (String × np_generator.Kernel)).lookup key = some v →
      ([(np_generator.cache_key 0 "row",
         np_generator.numpy_generator 0 (np_generator.cache_key 0 "row")
           "row")]).lookup key = some v :=
  C8_cache_single_build [] 0 0 1 "row" (by norm_num) (by norm_num) rfl

/-- C5: for one and the same enumeration supplied by the shared orderer,
the two backends agree bit-for-bit in formula structure: the per-component
synthesized term bundles coincide (component for component, in order), the
emitted gradient and Hessian statement lists are identical, and the value
formula of both backends is `S0 * A` placed at the component's flat index
(the blocked backend at tile offset `idx * tile size` of its tile-local
buffer, the array backend at row `idx` of the value buffer). -/
theorem C5_backend_agreement (idx : Nat) (l m n : Int) (shift : Nat)
    (comps : List (Nat × Int × Int × Int)) :
    (comps.map fun e => c_generator.term_bundle e.2.1 e.2.2.1 e.2.2.2) =
      (comps.map fun e => np_generator.term_bundle e.2.1 e.2.2.1 e.2.2.2) ∧
    c_generator.term_bundle l m n = np_generator.term_bundle l m n ∧
    (c_generator._c_am_component idx l m n shift).2.1 =
      (np_generator._numpy_am_component idx l m n).2.1 ∧
    (c_generator._c_am_component idx l m n shift).2.2 =
      (np_generator._numpy_am_component idx l m n).2.2 ∧
    (c_generator._c_am_component idx l m n shift).1 =
      [Stmt.letline ((np_generator.term_bundle l m n).A.getD ""),
       Stmt.assignTile (idx * shift) (.sym2 "S0" "A")] ∧
    (np_generator._numpy_am_component idx l m n).1 =
      [Stmt.letline ((np_generator.term_bundle l m n).A.getD ""),
       Stmt.assign "PHI" idx (.sym2 "S0" "A")] :=
  ⟨rfl, rfl, rfl, rfl, rfl, rfl⟩

/-- Membership in an `ifPresent` block comes from a present term. -/
theorem mem_ifPresent {o : Option String} {f : String → List Stmt} {a : Stmt}
    (h : a ∈ ifPresent o f) : ∃ v, a ∈ f v := by
  cases o with
  | none => simp [ifPresent] at h
  | some v => exact ⟨v, h⟩

/-- Every labelled statement of the NumPy value block writes `PHI`. -/
theorem np_density_labels (idx : Nat) (l m n : Int) :
    ∀ s ∈ (np_generator._numpy_am_component idx l m n).1, ∀ t,
      stmt_label s = some t → t = "PHI" := by
  intro s hs t ht
  simp only [np_generator._numpy_am_component] at hs
  fin_cases hs <;> simp_all [stmt_label]

/-- Every labelled statement of the NumPy gradient block writes one of the
three gradient labels. -/
theorem np_grad_part_labels (idx : Nat) (l m n : Int) :
    ∀ s ∈ (np_generator._numpy_am_component idx l m n).2.1, ∀ t,
      stmt_label s = some t → t ∈ xyzspec.grad_labels := by
  intro s hs t ht
  simp only [np_generator._numpy_am_component, List.mem_append, or_assoc] at hs
  rcases hs with h | h | h | h <;>
    (try obtain ⟨v, h⟩ := mem_ifPresent h) <;>
    (try fin_cases h) <;>
    simp_all [stmt_label, xyzspec.grad_labels]

/-- Every labelled statement of the NumPy Hessian block writes one of the
six Hessian labels. -/
theorem np_hess_part_labels (idx : Nat) (l m n : Int) :
    ∀ s ∈ (np_generator._numpy_am_component idx l m n).2.2, ∀ t,
      stmt_label s = some t → t ∈ xyzspec.hess_labels := by
  intro s hs t ht
  simp only [np_generator._numpy_am_component, List.mem_append, or_assoc] at hs
  rcases hs with h|h|h|h|h|h|h|h|h|h|h|h|h|h|h|h|h|h|h|h|h <;>
    (try obtain ⟨v, h⟩ := mem_ifPresent h) <;>
    (try split at h) <;>
    (try fin_cases h) <;>
    simp_all [stmt_label, xyzspec.hess_labels]

/-- C9: the array-backend result bundle contains exactly the labels implied
by the requested derivative order — the value label always, the three
gradient labels exactly when grad ≥ 1, the six Hessian labels exactly when
grad ≥ 2 — every buffer is allocated with shape (ncart, npoints), and every
statement the generated kernel runs at that order writes an allocated
label only. -/
theorem C9_output_bundle (grad L npoints idx : Nat) (l m n : Int) :
    ("PHI" ∈ (np_generator.output_alloc grad L npoints).map Prod.fst) ∧
    (∀ t ∈ xyzspec.grad_labels,
      (t ∈ (np_generator.output_alloc grad L npoints).map Prod.fst ↔
        1 ≤ grad)) ∧
    (∀ t ∈ xyzspec.hess_labels,
      (t ∈ (np_generator.output_alloc grad L npoints).map Prod.fst ↔
        2 ≤ grad)) ∧
    (∀ e ∈ np_generator.output_alloc grad L npoints,
      e.2 = ((L + 1) * (L + 2) / 2, npoints)) ∧
    (∀ s ∈ np_generator.active_stmts grad idx l m n, ∀ t,
      stmt_label s = some t →
        t ∈ (np_generator.output_alloc grad L npoints).map Prod.fst) := by
  rcases grad with _ | _ | g
  · refine ⟨?_, ?_, ?_, ?_, ?_⟩
    · simp [np_generator.output_alloc]
    · intro t htl
      fin_cases htl <;> simp [np_generator.output_alloc]
    · intro t htl
      fin_cases htl <;> simp [np_generator.output_alloc]
    · intro e he
      simp only [np_generator.output_alloc] at he
      simp only [Nat.lt_irrefl, if_false, ite_false, List.append_nil,
        gt_iff_lt] at he
      simp at he
      rw [he]
    · intro s hs t ht
      have hd : s ∈ (np_generator._numpy_am_component idx l m n).1 := by
        simpa [np_generator.active_stmts] using hs
      have hphi := np_density_labels idx l m n s hd t ht
      simp [np_generator.output_alloc, hphi]
  · refine ⟨?_, ?_, ?_, ?_, ?_⟩
    · simp [np_generator.output_alloc]
    · intro t htl
      fin_cases htl <;> simp [np_generator.output_alloc]
    · intro t htl
      fin_cases htl <;> simp [np_generator.output_alloc]
    · intro e he
      simp only [np_generator.output_alloc] at he
      simp at he
      rcases he with he | he | he | he <;> rw [he]
    · intro s hs t ht
      simp only [np_generator.active_stmts, List.mem_append] at hs
      have h10 : (1 : Nat) > 0 := by norm_num
      have h11 : ¬ (1 : Nat) > 1 := by norm_num
      rw [if_pos h10, if_neg h11] at hs
      simp only [List.not_mem_nil, or_false, or_assoc] at hs
      rcases hs with h | h
      · have hphi := np_density_labels idx l m n s h t ht
        simp [np_generator.output_alloc, hphi]
      · have hg := np_grad_part_labels idx l m n s h t ht
        simp only [xyzspec.grad_labels] at hg
        simp at hg
        rcases hg with rfl | rfl | rfl <;> simp [np_generator.output_alloc]
  · refine ⟨?_, ?_, ?_, ?_, ?_⟩
    · simp [np_generator.output_alloc]
    · intro t htl
      have h0 : (0 : Nat) < g + 2 := by omega
      have h1 : (1 : Nat) < g + 2 := by omega
      have h1' : (1 : Nat) ≤ g + 2 := by omega
      fin_cases htl <;> simp [np_generator.output_alloc, h0, h1, h1']
    · intro t htl
      have h0 : (0 : Nat) < g + 2 := by omega
      have h1 : (1 : Nat) < g + 2 := by omega
      have h2' : (2 : Nat) ≤ g + 2 := by omega
      fin_cases htl <;> simp [np_generator.output_alloc, h0, h1, h2']
    · intro e he
      have h0 : (0 : Nat) < g + 2 := by omega
      have h1 : (1 : Nat) < g + 2 := by omega
      simp only [np_generator.output_alloc] at he
      simp [h0, h1] at he
      rcases he with he|he|he|he|he|he|he|he|he|he <;> rw [he]
    · intro s hs t ht
      simp only [np_generator.active_stmts, List.mem_append] at hs
      have h0 : (0 : Nat) < g + 2 := by omega
      have h1 : (1 : Nat) < g + 2 := by omega
      rw [if_pos h0, if_pos h1] at hs
      simp only [or_assoc] at hs
      rcases hs with h | h | h
      · have hphi := np_density_labels idx l m n s h t ht
        simp [np_generator.output_alloc, hphi, h0, h1]
      · have hg := np_grad_part_labels idx l m n s h t ht
        simp only [xyzspec.grad_labels] at hg
        simp at hg
        rcases hg with rfl | rfl | rfl <;>
          simp [np_generator.output_alloc, h0, h1]
      · have hh := np_hess_part_labels idx l m n s h t ht
        simp only [xyzspec.hess_labels] at hh
        simp at hh
        rcases hh with rfl|rfl|rfl|rfl|rfl|rfl <;>
          simp [np_generator.output_alloc, h0, h1]

/-- Counting inside an `ifPresent` block. -/
theorem count_ifPresent_eq (e : Stmt) (o : Option String)
    (f : String → List Stmt) :
    List.count e (ifPresent o f) = o.elim 0 (fun v => List.count e (f v)) := by
  cases o <;> rfl

/-- `Option.elim` of a constant function. -/
theorem opt_elim_const {β : Type} (o : Option β) (c : Nat) :
    (o.elim c fun _ => c) = c := by
  cases o <;> rfl

/-- Filtering distributes into an `ifPresent` block. -/
theorem filter_ifPresent (p : Stmt → Bool) (o : Option String)
    (f : String → List Stmt) :
    (ifPresent o f).filter p = ifPresent o fun v => (f v).filter p := by
  cases o <;> rfl

/-- An `ifPresent` block of nothing is nothing. -/
theorem ifPresent_nil (o : Option String) :
    ifPresent o (fun _ => []) = [] := by
  cases o <;> rfl

/-- `targets` on an assignment. -/
@[simp]
theorem targets_assign (t tgt : String) (idx : Nat) (r : Rhs) :
    targets t (Stmt.assign tgt idx r) = (tgt == t) := rfl

/-- `targets` on an accumulation. -/
@[simp]
theorem targets_accum (t tgt : String) (idx : Nat) (r : Rhs) :
    targets t (Stmt.accum tgt idx r) = (tgt == t) := rfl

/-- `targets` on a tile-local write. -/
@[simp]
theorem targets_assignTile (t : String) (off : Nat) (r : Rhs) :
    targets t (Stmt.assignTile off r) = false := rfl

/-- `targets` on a term-definition line. -/
@[simp]
theorem targets_letline (t s : String) :
    targets t (Stmt.letline s) = false := rfl

/-- C10: in both backends, for each axis the same-axis Hessian output
accumulates the cross contribution `S<axis> * A<axis>` exactly twice when
the component's gradient flag for that axis is set (the axis angular
gradient term is present) and never otherwise; and when the flag is clear
the only statements writing that same-axis Hessian label are the radial
assignment `S<axis><axis> * A` and, if present, the pure angular
second-derivative accumulation. -/
theorem C10_hessian_double_cross (idx : Nat) (l m n : Int) (shift : Nat) :
    (List.count (Stmt.accum "PHI_XX" idx (.sym2 "SX" "AX"))
        (np_generator._numpy_am_component idx l m n).2.2 =
      (if (np_generator.term_bundle l m n).AX.isSome then 2 else 0)) ∧
    (List.count (Stmt.accum "PHI_YY" idx (.sym2 "SY" "AY"))
        (np_generator._numpy_am_component idx l m n).2.2 =
      (if (np_generator.term_bundle l m n).AY.isSome then 2 else 0)) ∧
    (List.count (Stmt.accum "PHI_ZZ" idx (.sym2 "SZ" "AZ"))
        (np_generator._numpy_am_component idx l m n).2.2 =
      (if (np_generator.term_bundle l m n).AZ.isSome then 2 else 0)) ∧
    (List.count (Stmt.accum "PHI_XX" idx (.sym2 "SX" "AX"))
        (c_generator._c_am_component idx l m n shift).2.2 =
      (if (c_generator.term_bundle l m n).AX.isSome then 2 else 0)) ∧
    (List.count (Stmt.accum "PHI_YY" idx (.sym2 "SY" "AY"))
        (c_generator._c_am_component idx l m n shift).2.2 =
      (if (c_generator.term_bundle l m n).AY.isSome then 2 else 0)) ∧
    (List.count (Stmt.accum "PHI_ZZ" idx (.sym2 "SZ" "AZ"))
        (c_generator._c_am_component idx l m n shift).2.2 =
      (if (c_generator.term_bundle l m n).AZ.isSome then 2 else 0)) ∧
    ((np_generator.term_bundle l m n).AX = none →
      (np_generator._numpy_am_component idx l m n).2.2.filter
          (targets "PHI_XX") =
        [Stmt.assign "PHI_XX" idx (.sym2 "SXX" "A")] ++
          ifPresent (np_generator.term_bundle l m n).AXX
            (fun s => [Stmt.accum "PHI_XX" idx (.inlineS0 (rhs_of s))])) ∧
    ((np_generator.term_bundle l m n).AY = none →
      (np_generator._numpy_am_component idx l m n).2.2.filter
          (targets "PHI_YY") =
        [Stmt.assign "PHI_YY" idx (.sym2 "SYY" "A")] ++
          ifPresent (np_generator.term_bundle l m n).AYY
            (fun s => [Stmt.accum "PHI_YY" idx (.inlineS0 (rhs_of s))])) ∧
    ((np_generator.term_bundle l m n).AZ = none →
      (np_generator._numpy_am_component idx l m n).2.2.filter
          (targets "PHI_ZZ") =
        [Stmt.assign "PHI_ZZ" idx (.sym2 "SZZ" "A")] ++
          ifPresent (np_generator.term_bundle l m n).AZZ
            (fun s => [Stmt.accum "PHI_ZZ" idx (.inlineS0 (rhs_of s))])) ∧
    ((c_generator.term_bundle l m n).AX = none →
      (c_generator._c_am_component idx l m n shift).2.2.filter
          (targets "PHI_XX") =
        [Stmt.assign "PHI_XX" idx (.sym2 "SXX" "A")] ++
          ifPresent (c_generator.term_bundle l m n).AXX
            (fun s => [Stmt.accum "PHI_XX" idx (.inlineS0 (rhs_of s))])) := by
  have hceq : (c_generator._c_am_component idx l m n shift).2.2 =
      (np_generator._numpy_am_component idx l m n).2.2 := rfl
  have hbeq : c_generator.term_bundle l m n = np_generator.term_bundle l m n :=
    rfl
  have hXX : List.count (Stmt.accum "PHI_XX" idx (.sym2 "SX" "AX"))
      (np_generator._numpy_am_component idx l m n).2.2 =
      (if (np_generator.term_bundle l m n).AX.isSome then 2 else 0) := by
    rcases hAX : (np_generator.term_bundle l m n).AX with _ | sx <;>
      simp [np_generator._numpy_am_component, hAX, List.count_append,
        count_ifPresent_eq, opt_elim_const, List.count_cons,
        apply_ite (List.count (Stmt.accum "PHI_XX" idx (Rhs.sym2 "SX" "AX")))]
  have hYY : List.count (Stmt.accum "PHI_YY" idx (.sym2 "SY" "AY"))
      (np_generator._numpy_am_component idx l m n).2.2 =
      (if (np_generator.term_bundle l m n).AY.isSome then 2 else 0) := by
    rcases hAY : (np_generator.term_bundle l m n).AY with _ | sy <;>
      simp [np_generator._numpy_am_component, hAY, List.count_append,
        count_ifPresent_eq, opt_elim_const, List.count_cons,
        apply_ite (List.count (Stmt.accum "PHI_YY" idx (Rhs.sym2 "SY" "AY")))]
  have hZZ : List.count (Stmt.accum "PHI_ZZ" idx (.sym2 "SZ" "AZ"))
      (np_generator._numpy_am_component idx l m n).2.2 =
      (if (np_generator.term_bundle l m n).AZ.isSome then 2 else 0) := by
    rcases hAZ : (np_generator.term_bundle l m n).AZ with _ | sz <;>
      simp [np_generator._numpy_am_component, hAZ, List.count_append,
        count_ifPresent_eq, opt_elim_const, List.count_cons,
        apply_ite (List.count (Stmt.accum "PHI_ZZ" idx (Rhs.sym2 "SZ" "AZ")))]
  have hFX : (np_generator.term_bundle l m n).AX = none →
      (np_generator._numpy_am_component idx l m n).2.2.filter
          (targets "PHI_XX") =
        [Stmt.assign "PHI_XX" idx (.sym2 "SXX" "A")] ++
          ifPresent (np_generator.term_bundle l m n).AXX
            (fun s => [Stmt.accum "PHI_XX" idx (.inlineS0 (rhs_of s))]) := by
    intro h
    simp [np_generator._numpy_am_component, h, List.filter_append,
      filter_ifPresent, ifPresent_nil,
      apply_ite (List.filter (targets "PHI_XX"))]
  have hFY : (np_generator.term_bundle l m n).AY = none →
      (np_generator._numpy_am_component idx l m n).2.2.filter
          (targets "PHI_YY") =
        [Stmt.assign "PHI_YY" idx (.sym2 "SYY" "A")] ++
          ifPresent (np_generator.term_bundle l m n).AYY
            (fun s => [Stmt.accum "PHI_YY" idx (.inlineS0 (rhs_of s))]) := by
    intro h
    simp [np_generator._numpy_am_component, h, List.filter_append,
      filter_ifPresent, ifPresent_nil,
      apply_ite (List.filter (targets "PHI_YY"))]
  have hFZ : (np_generator.term_bundle l m n).AZ = none →
      (np_generator._numpy_am_component idx l m n).2.2.filter
          (targets "PHI_ZZ") =
        [Stmt.assign "PHI_ZZ" idx (.sym2 "SZZ" "A")] ++
          ifPresent (np_generator.term_bundle l m n).AZZ
            (fun s => [Stmt.accum "PHI_ZZ" idx (.inlineS0 (rhs_of s))]) := by
    intro h
    simp [np_generator._numpy_am_component, h, List.filter_append,
      filter_ifPresent, ifPresent_nil,
      apply_ite (List.filter (targets "PHI_ZZ"))]
  refine ⟨hXX, hYY, hZZ, ?_, ?_, ?_, hFX, hFY, hFZ, ?_⟩
  · rw [hceq, hbeq]; exact hXX
  · rw [hceq, hbeq]; exact hYY
  · rw [hceq, hbeq]; exact hZZ
  · rw [hceq, hbeq]; exact hFX

/-- Witness for C10 at the component with raw exponents (0, 0, 1), whose
x-axis angular gradient term is absent. -/
theorem C10_witness :
    (List.count (Stmt.accum "PHI_XX" 0 (.sym2 "SX" "AX"))
        (np_generator._numpy_am_component 0 0 0 1).2.2 =
      (if (np_generator.term_bundle 0 0 1).AX.isSome then 2 else 0)) ∧
    (np_generator._numpy_am_component 0 0 0 1).2.2.filter
        (targets "PHI_XX") =
      [Stmt.assign "PHI_XX" 0 (.sym2 "SXX" "A")] ++
        ifPresent (np_generator.term_bundle 0 0 1).AXX
          (fun s => [Stmt.accum "PHI_XX" 0 (.inlineS0 (rhs_of s))]) :=
  ⟨(C10_hessian_double_cross 0 0 0 1 64).1,
   (C10_hessian_double_cross 0 0 0 1 64).2.2.2.2.2.2.1 (by decide)⟩

/-- Witness for C9: at derivative order 1 the gradient label `PHI_X` is
allocated. -/
theorem C9_witness :
    "PHI_X" ∈ (np_generator.output_alloc 1 1 3).map Prod.fst :=
  ((C9_output_bundle 1 1 3 0 1 0 0).2.1 "PHI_X" (by decide)).mpr (by norm_num)
